import Mathlib

/-!
Verification of the Event Mutation Reconciliation Engine of the
tana-sync-gcal service.

The embedding follows `src/api/events/service.ts` (the `createEventService`
closure: `createEvent`, `updateEvent`, `deleteEvent`, `_buildTanaPaste`)
and `src/common/utils/google-calendar.ts` (the Gateway wrappers).
The remote provider is modelled as a `Gateway` record of response
functions; each engine operation returns the list of Gateway calls it
issued together with its result, so that call sequences, merge payloads
and failure propagation can be stated and proved.  The Date/Time
Resolver (`buildEventDateTimeInfo` from `handle-tana-date`) is an
external collaborator: the engine is parameterized by it, exactly as the
source treats it as an opaque pass-through.
-/

namespace TanaGcal

/-- Opaque Tana date descriptor (`TanaDateInfo`); the engine never
inspects it, only passes it to the resolver. -/
structure TanaDateInfo where
  raw : String
deriving DecidableEq, Repr

/-- Google Calendar `EventDateTime` value: `date`, `dateTime`, `timeZone`
optional string fields, as in `calendar_v3.Schema$EventDateTime`. -/
structure EventDateTime where
  date : Option String := none
  dateTime : Option String := none
  timeZone : Option String := none
deriving DecidableEq, Repr

/-- The provider's full event resource (`calendar_v3.Schema$Event`,
restricted to the fields this service reads or writes, plus
representative provider-managed fields `status`, `etag`, `attendees`
that the engine copies but never sets). -/
structure CalendarEvent where
  id : Option String := none
  htmlLink : Option String := none
  summary : Option String := none
  description : Option String := none
  location : Option String := none
  start : Option EventDateTime := none
  «end» : Option EventDateTime := none
  status : Option String := none
  etag : Option String := none
  attendees : Option (List String) := none
deriving DecidableEq, Repr

/-- Validated create payload (`EventData` after the zod schema applied
its defaults: `description`, `location` default to `""`, `timeZone`
defaults to `"Etc/UTC"`). -/
structure EventData where
  name : String
  date : TanaDateInfo
  description : String
  timeZone : String
  location : String
deriving DecidableEq, Repr

/-- Validated partial update payload (`PartialEventData =
EventDataSchema.partial()`): every field optional, `none` meaning the
key was absent from the parsed object. -/
structure PartialEventData where
  name : Option String := none
  date : Option TanaDateInfo := none
  description : Option String := none
  timeZone : Option String := none
  location : Option String := none
deriving DecidableEq, Repr

/-- Error raised by a failing provider call (a rejected promise from
`client.events.*`). -/
structure GError where
  msg : String
deriving DecidableEq, Repr

/-- One observable Gateway call, recording the arguments the engine
passed to the corresponding `google-calendar.ts` wrapper. -/
inductive GCall where
  | get (calendarId eventId : String)
  | insert (calendarId : String) (body : CalendarEvent)
  | update (calendarId eventId : String) (body : CalendarEvent)
  | move (calendarId eventId destinationCalendarId : String)
  | delete (calendarId eventId : String)
deriving DecidableEq, Repr

/-- `true` on `GCall.move`. -/
def GCall.isMove : GCall → Bool
  | .move _ _ _ => true
  | _ => false

/-- The remote provider: how each call responds (`Except.error` models a
rejected promise).  The engine is parameterized by it. -/
structure Gateway where
  getEvent : String → String → Except GError CalendarEvent
  insertEvent : String → CalendarEvent → Except GError CalendarEvent
  updateEvent : String → String → CalendarEvent → Except GError CalendarEvent
  moveEvent : String → String → String → Except GError CalendarEvent
  deleteEvent : String → String → Except GError Unit

/-- The Date/Time Resolver contract: `buildEventDateTimeInfo(date,
timeZone)` returning the `{start, end}` pair. -/
abbrev Resolver := TanaDateInfo → String → EventDateTime × EventDateTime

/-- JS template-literal rendering of a possibly-undefined string
(`undefined` prints as the string `"undefined"`). -/
def optStr : Option String → String
  | some s => s
  | none => "undefined"

/-- `_buildTanaPaste` from `service.ts`: the fixed three-line paste
block. -/
def buildTanaPaste (event : CalendarEvent) (calendarId : String) : String :=
  "Event URL::" ++ optStr event.htmlLink ++ "\n" ++
  "Event ID::" ++ optStr event.id ++ "\n" ++
  "Synced Calendar ID::" ++ calendarId

/-- `Object.keys(data).length > 0` on the parsed partial payload: at
least one key present. -/
def hasFieldsToUpdate (data : PartialEventData) : Bool :=
  data.name.isSome || data.date.isSome || data.description.isSome ||
  data.timeZone.isSome || data.location.isSome

/-- `data.timeZone || 'Etc/UTC'`: JS `||` falls through on `undefined`
and on the empty string. -/
def tzOrDefault : Option String → String
  | some t => if t = "" then "Etc/UTC" else t
  | none => "Etc/UTC"

/-- The merge step of `updateEvent` (`service.ts` lines 186–204): copy
the base snapshot and overwrite exactly the fields present in `data`;
a present `date` recomputes `start` and `end` as a pair through the
resolver. -/
def mkUpdatedEventData (resolve : Resolver) (event : CalendarEvent)
    (data : PartialEventData) : CalendarEvent :=
  let u := event
  let u := match data.name with
    | some n => { u with summary := some n }
    | none => u
  let u := match data.description with
    | some d => { u with description := some d }
    | none => u
  let u := match data.location with
    | some l => { u with location := some l }
    | none => u
  match data.date with
  | some dt =>
    let se := resolve dt (tzOrDefault data.timeZone)
    { u with start := some se.1, «end» := some se.2 }
  | none => u

/-- `insertEvent` wrapper body from `google-calendar.ts`: the object
literal `{summary, description, location, start, end}` built by
`createEvent`; every other resource field is absent. -/
def createEventBody (resolve : Resolver) (data : EventData) : CalendarEvent :=
  let se := resolve data.date data.timeZone
  { summary := some data.name
    description := some data.description
    location := some data.location
    start := some se.1
    «end» := some se.2 }

/-- `createEvent` from `service.ts`: resolve the date, issue one Gateway
insert, render the paste text.  Returns the issued calls and the
result. -/
def createEvent (gw : Gateway) (resolve : Resolver) (calendarId : String)
    (data : EventData) : List GCall × Except GError String :=
  let body := createEventBody resolve data
  match gw.insertEvent calendarId body with
  | .ok event => ([.insert calendarId body], .ok (buildTanaPaste event calendarId))
  | .error e => ([.insert calendarId body], .error e)

/-- The merge-and-render phase of `updateEvent` (`service.ts` lines
177–219): when any field is present, fetch the snapshot unless the move
already provided one, merge, full-resource update; otherwise fall back
to a fetch when no snapshot is at hand; then render.  `eventOpt` is the
`event` local (the move result when a move occurred). -/
def updateEventMerge (gw : Gateway) (resolve : Resolver)
    (currentCalendarId eventId : String) (data : PartialEventData)
    (eventOpt : Option CalendarEvent) : List GCall × Except GError String :=
  if hasFieldsToUpdate data then
    -- step 2a: fetch the snapshot when the move did not provide one
    let getStep : List GCall × Except GError CalendarEvent :=
      match eventOpt with
      | some ev => ([], .ok ev)
      | none => ([.get currentCalendarId eventId],
                 gw.getEvent currentCalendarId eventId)
    match getStep with
    | (tr2, .error e) => (tr2, .error e)
    | (tr2, .ok ev) =>
      -- step 2b/2c: merge present fields, full-resource update
      let updatedEventData := mkUpdatedEventData resolve ev data
      match gw.updateEvent currentCalendarId eventId updatedEventData with
      | .ok ev2 =>
        (tr2 ++ [.update currentCalendarId eventId updatedEventData],
         .ok (buildTanaPaste ev2 currentCalendarId))
      | .error e =>
        (tr2 ++ [.update currentCalendarId eventId updatedEventData], .error e)
  else
    -- step 3: fallback fetch when neither a move nor a merge occurred
    match eventOpt with
    | some ev => ([], .ok (buildTanaPaste ev currentCalendarId))
    | none =>
      match gw.getEvent currentCalendarId eventId with
      | .ok ev => ([.get currentCalendarId eventId],
                   .ok (buildTanaPaste ev currentCalendarId))
      | .error e => ([.get currentCalendarId eventId], .error e)

/-- `updateEvent` from `service.ts` lines 157–220: optional move, then
the merge/fallback phase, then render.  `toCalendarId = none` models an
absent argument; the move condition
`toCalendarId && toCalendarId !== fromCalendarId` keeps the JS
truthiness test (the empty string is falsy).  The returned list is the
sequence of Gateway calls issued, including those before a failure; a
failing call aborts the rest. -/
def updateEvent (gw : Gateway) (resolve : Resolver)
    (fromCalendarId eventId : String) (data : PartialEventData)
    (toCalendarId : Option String) : List GCall × Except GError String :=
  -- step 1: move decision
  match toCalendarId with
  | some t =>
    if t ≠ "" ∧ t ≠ fromCalendarId then
      match gw.moveEvent fromCalendarId eventId t with
      | .error e => ([.move fromCalendarId eventId t], .error e)
      | .ok ev =>
        let rest := updateEventMerge gw resolve t eventId data (some ev)
        (.move fromCalendarId eventId t :: rest.1, rest.2)
    else updateEventMerge gw resolve fromCalendarId eventId data none
  | none => updateEventMerge gw resolve fromCalendarId eventId data none

/-- `deleteEvent` from `google-calendar.ts`: await the raw provider
delete (whose failure is a rejected promise, propagated), then
`return true` unconditionally. -/
def gcDeleteEvent (gw : Gateway) (calendarId eventId : String) :
    List GCall × Except GError Bool :=
  match gw.deleteEvent calendarId eventId with
  | .ok _ => ([.delete calendarId eventId], .ok true)
  | .error e => ([.delete calendarId eventId], .error e)

/-- `deleteEvent` from `service.ts`: a direct pass-through of the
Gateway wrapper. -/
def deleteEvent (gw : Gateway) (calendarId eventId : String) :
    List GCall × Except GError Bool :=
  gcDeleteEvent gw calendarId eventId

/-- The calendar the event resides in after the move decision of
`updateEvent`: the destination when a move occurred, the source
calendar otherwise. -/
def currentCalendarAfter (fromCalendarId : String)
    (toCalendarId : Option String) : String :=
  match toCalendarId with
  | some t => if t ≠ "" ∧ t ≠ fromCalendarId then t else fromCalendarId
  | none => fromCalendarId

/-- Exactly one key present in a partial payload. -/
def exactlyOnePresent (data : PartialEventData) : Prop :=
  (data.name.isSome ∧ data.date = none ∧ data.description = none ∧
     data.timeZone = none ∧ data.location = none) ∨
  (data.date.isSome ∧ data.name = none ∧ data.description = none ∧
     data.timeZone = none ∧ data.location = none) ∨
  (data.description.isSome ∧ data.name = none ∧ data.date = none ∧
     data.timeZone = none ∧ data.location = none) ∨
  (data.timeZone.isSome ∧ data.name = none ∧ data.date = none ∧
     data.description = none ∧ data.location = none) ∨
  (data.location.isSome ∧ data.name = none ∧ data.date = none ∧
     data.description = none ∧ data.timeZone = none)

/-! Concrete fixtures used to instantiate the theorems. -/

/-- A concrete resolver for instantiation: start/end derived from the
descriptor text and the timezone it was called with. -/
def wResolve : Resolver := fun d tz =>
  ({ dateTime := some (d.raw ++ "T09:00:00"), timeZone := some tz },
   { dateTime := some (d.raw ++ "T10:00:00"), timeZone := some tz })

/-- A concrete pre-update snapshot. -/
def wBase : CalendarEvent :=
  { id := some "ev-1"
    htmlLink := some "https://cal.example/ev-1"
    summary := some "Standup"
    description := some "old description"
    location := some "Office"
    start := some { dateTime := some "2025-01-01T09:00:00", timeZone := some "Etc/UTC" }
    «end» := some { dateTime := some "2025-01-01T10:00:00", timeZone := some "Etc/UTC" }
    status := some "confirmed"
    etag := some "etag-1" }

/-- A gateway on which every call succeeds: get and move return
`wBase`, insert and update echo their payload with provider-issued
identifier and link. -/
def okGw : Gateway :=
  { getEvent := fun _ _ => .ok wBase
    insertEvent := fun _ body =>
      .ok { body with id := some "new-ev", htmlLink := some "https://cal.example/new-ev" }
    updateEvent := fun _ _ body => .ok body
    moveEvent := fun _ _ _ => .ok wBase
    deleteEvent := fun _ _ => .ok () }

/-- A gateway whose raw provider delete call fails (rejected promise). -/
def failDeleteGw : Gateway :=
  { okGw with deleteEvent := fun _ _ => .error { msg := "delete failed" } }

/-- A gateway whose update call fails while move succeeds. -/
def failUpdateGw : Gateway :=
  { okGw with updateEvent := fun _ _ _ => .error { msg := "update failed" } }

/-! ## Lemmas about the merge phase -/

/-- With a present field and a snapshot in hand (from the move), the
merge phase issues exactly one update whose payload merges that
snapshot. -/
theorem merge_fields_some (gw : Gateway) (resolve : Resolver)
    (cal evId : String) (data : PartialEventData) (mv : CalendarEvent)
    (hf : hasFieldsToUpdate data = true) :
    updateEventMerge gw resolve cal evId data (some mv) =
      ([.update cal evId (mkUpdatedEventData resolve mv data)],
       (gw.updateEvent cal evId (mkUpdatedEventData resolve mv data)).map
         fun ev2 => buildTanaPaste ev2 cal) := by
  unfold updateEventMerge
  simp only [hf, if_true]
  cases hu : gw.updateEvent cal evId (mkUpdatedEventData resolve mv data) <;>
    simp [hu, Except.map]

/-- With no present field but a snapshot in hand, the merge phase issues
no call and renders the snapshot. -/
theorem merge_nofields_some (gw : Gateway) (resolve : Resolver)
    (cal evId : String) (data : PartialEventData) (mv : CalendarEvent)
    (hf : hasFieldsToUpdate data = false) :
    updateEventMerge gw resolve cal evId data (some mv) =
      ([], .ok (buildTanaPaste mv cal)) := by
  unfold updateEventMerge
  simp [hf]

/-- With a present field and no snapshot, the merge phase fetches, and on
a successful fetch issues the update merged from the fetched snapshot. -/
theorem merge_fields_none (gw : Gateway) (resolve : Resolver)
    (cal evId : String) (data : PartialEventData) (base : CalendarEvent)
    (hf : hasFieldsToUpdate data = true)
    (hget : gw.getEvent cal evId = .ok base) :
    updateEventMerge gw resolve cal evId data none =
      ([.get cal evId, .update cal evId (mkUpdatedEventData resolve base data)],
       (gw.updateEvent cal evId (mkUpdatedEventData resolve base data)).map
         fun ev2 => buildTanaPaste ev2 cal) := by
  unfold updateEventMerge
  simp only [hf, if_true, hget]
  cases hu : gw.updateEvent cal evId (mkUpdatedEventData resolve base data) <;>
    simp [hu, Except.map]

/-- With a present field and a failing fetch, the merge phase stops
after the get. -/
theorem merge_fields_none_get_err (gw : Gateway) (resolve : Resolver)
    (cal evId : String) (data : PartialEventData) (e : GError)
    (hf : hasFieldsToUpdate data = true)
    (hget : gw.getEvent cal evId = .error e) :
    updateEventMerge gw resolve cal evId data none = ([.get cal evId], .error e) := by
  unfold updateEventMerge
  simp [hf, hget]

/-- With no present field and no snapshot, the merge phase is the
fallback fetch alone. -/
theorem merge_nofields_none (gw : Gateway) (resolve : Resolver)
    (cal evId : String) (data : PartialEventData)
    (hf : hasFieldsToUpdate data = false) :
    updateEventMerge gw resolve cal evId data none =
      ([.get cal evId], (gw.getEvent cal evId).map fun ev => buildTanaPaste ev cal) := by
  unfold updateEventMerge
  simp only [hf, Bool.false_eq_true, if_false]
  cases hget : gw.getEvent cal evId <;> simp [hget, Except.map]

/-- Any successful result of the merge phase is the formatter applied to
some snapshot with the current calendar id. -/
theorem merge_ok_shape (gw : Gateway) (resolve : Resolver)
    (cal evId : String) (data : PartialEventData)
    (eventOpt : Option CalendarEvent) (s : String)
    (h : (updateEventMerge gw resolve cal evId data eventOpt).2 = .ok s) :
    ∃ ev, s = buildTanaPaste ev cal := by
  unfold updateEventMerge at h
  by_cases hf : hasFieldsToUpdate data = true
  · simp only [hf, if_true] at h
    rcases eventOpt with _ | mv
    · cases hget : gw.getEvent cal evId with
      | error e => simp [hget] at h
      | ok base =>
        simp only [hget] at h
        cases hu : gw.updateEvent cal evId (mkUpdatedEventData resolve base data) with
        | error e => simp [hu] at h
        | ok ev2 => simp [hu] at h; exact ⟨ev2, h.symm⟩
    · cases hu : gw.updateEvent cal evId (mkUpdatedEventData resolve mv data) with
      | error e => simp [hu] at h
      | ok ev2 => simp [hu] at h; exact ⟨ev2, h.symm⟩
  · simp only [Bool.not_eq_true] at hf
    simp only [hf, Bool.false_eq_true, if_false] at h
    rcases eventOpt with _ | mv
    · cases hget : gw.getEvent cal evId with
      | error e => simp [hget] at h
      | ok ev => simp [hget] at h; exact ⟨ev, h.symm⟩
    · simp at h; exact ⟨mv, h.symm⟩

/-- The merge phase never issues a move call. -/
theorem merge_no_move (gw : Gateway) (resolve : Resolver)
    (cal evId : String) (data : PartialEventData)
    (eventOpt : Option CalendarEvent) :
    ((updateEventMerge gw resolve cal evId data eventOpt).1.all
      fun c => !c.isMove) = true := by
  unfold updateEventMerge
  by_cases hf : hasFieldsToUpdate data = true
  · simp only [hf, if_true]
    rcases eventOpt with _ | mv
    · cases hget : gw.getEvent cal evId with
      | error e => simp [hget, GCall.isMove]
      | ok base =>
        simp only [hget]
        cases hu : gw.updateEvent cal evId (mkUpdatedEventData resolve base data) <;>
          simp [hu, GCall.isMove]
    · cases hu : gw.updateEvent cal evId (mkUpdatedEventData resolve mv data) <;>
        simp [hu, GCall.isMove]
  · simp only [Bool.not_eq_true] at hf
    simp only [hf, Bool.false_eq_true, if_false]
    rcases eventOpt with _ | mv
    · cases hget : gw.getEvent cal evId <;> simp [hget, GCall.isMove]
    · simp

/-! ## Lemmas about the move decision -/

/-- Without a destination calendar, `updateEvent` is exactly the merge
phase on the source calendar with no snapshot. -/
theorem updateEvent_none_eq_merge (gw : Gateway) (resolve : Resolver)
    (fromCal evId : String) (data : PartialEventData) :
    updateEvent gw resolve fromCal evId data none =
      updateEventMerge gw resolve fromCal evId data none := rfl

/-- A destination equal to the source calendar skips the move: same
behavior as an absent destination. -/
theorem updateEvent_some_self_eq_none (gw : Gateway) (resolve : Resolver)
    (fromCal evId : String) (data : PartialEventData) :
    updateEvent gw resolve fromCal evId data (some fromCal) =
      updateEvent gw resolve fromCal evId data none := by
  unfold updateEvent
  simp

/-- With a truthy, different destination and a successful move,
`updateEvent` is the move call followed by the merge phase on the
destination calendar seeded with the move result. -/
theorem updateEvent_move_ok (gw : Gateway) (resolve : Resolver)
    (fromCal evId : String) (data : PartialEventData) (t : String)
    (mv : CalendarEvent) (ht : t ≠ "") (hne : t ≠ fromCal)
    (hmv : gw.moveEvent fromCal evId t = .ok mv) :
    updateEvent gw resolve fromCal evId data (some t) =
      (.move fromCal evId t :: (updateEventMerge gw resolve t evId data (some mv)).1,
       (updateEventMerge gw resolve t evId data (some mv)).2) := by
  unfold updateEvent
  simp only [ne_eq, ht, hne, not_false_iff, and_self, if_true, hmv]

/-- With a truthy, different destination and a failing move,
`updateEvent` stops after the move call. -/
theorem updateEvent_move_err (gw : Gateway) (resolve : Resolver)
    (fromCal evId : String) (data : PartialEventData) (t : String)
    (e : GError) (ht : t ≠ "") (hne : t ≠ fromCal)
    (hmv : gw.moveEvent fromCal evId t = .error e) :
    updateEvent gw resolve fromCal evId data (some t) =
      ([.move fromCal evId t], .error e) := by
  unfold updateEvent
  simp only [ne_eq, ht, hne, not_false_iff, and_self, if_true, hmv]

/-! ## Claims -/

/-- Claim C1: with exactly one present field, the resource passed to the
Gateway update call differs from the base snapshot (fetched, or moved
when a move preceded) only in that field: `name` maps to `summary`,
`description` and `location` map directly, a present `date` replaces
`start` and `end` together; every other field of the snapshot is
identical in the payload, expressed as a record-update equality. -/
theorem update_single_field_frame (gw : Gateway) (resolve : Resolver)
    (fromCal evId : String) (data : PartialEventData) (base : CalendarEvent)
    (hone : exactlyOnePresent data) :
    (∀ t mv, t ≠ "" → t ≠ fromCal → gw.moveEvent fromCal evId t = .ok mv →
      (updateEvent gw resolve fromCal evId data (some t)).1 =
        [.move fromCal evId t, .update t evId (mkUpdatedEventData resolve mv data)]) ∧
    (gw.getEvent fromCal evId = .ok base →
      (updateEvent gw resolve fromCal evId data none).1 =
        [.get fromCal evId, .update fromCal evId (mkUpdatedEventData resolve base data)]) ∧
    (∀ n, data.name = some n →
      mkUpdatedEventData resolve base data = { base with summary := some n }) ∧
    (∀ d, data.description = some d →
      mkUpdatedEventData resolve base data = { base with description := some d }) ∧
    (∀ l, data.location = some l →
      mkUpdatedEventData resolve base data = { base with location := some l }) ∧
    (∀ dt, data.date = some dt →
      mkUpdatedEventData resolve base data =
        { base with start := some (resolve dt "Etc/UTC").1,
                    «end» := some (resolve dt "Etc/UTC").2 }) ∧
    (data.name = none → data.date = none → data.description = none →
      data.location = none → mkUpdatedEventData resolve base data = base) := by
  have hf : hasFieldsToUpdate data = true := by
    rcases hone with ⟨h, _⟩ | ⟨h, _⟩ | ⟨h, _⟩ | ⟨h, _⟩ | ⟨h, _⟩ <;>
      simp [hasFieldsToUpdate, h]
  refine ⟨?_, ?_, ?_, ?_, ?_, ?_, ?_⟩
  · intro t mv ht hne hmv
    rw [updateEvent_move_ok gw resolve fromCal evId data t mv ht hne hmv,
      merge_fields_some gw resolve t evId data mv hf]
  · intro hget
    rw [updateEvent_none_eq_merge,
      merge_fields_none gw resolve fromCal evId data base hf hget]
  · intro n hn
    rcases hone with ⟨h1, h2, h3, h4, h5⟩ | ⟨h1, h2, h3, h4, h5⟩ |
      ⟨h1, h2, h3, h4, h5⟩ | ⟨h1, h2, h3, h4, h5⟩ | ⟨h1, h2, h3, h4, h5⟩ <;>
      simp_all [mkUpdatedEventData, tzOrDefault]
  · intro d hd
    rcases hone with ⟨h1, h2, h3, h4, h5⟩ | ⟨h1, h2, h3, h4, h5⟩ |
      ⟨h1, h2, h3, h4, h5⟩ | ⟨h1, h2, h3, h4, h5⟩ | ⟨h1, h2, h3, h4, h5⟩ <;>
      simp_all [mkUpdatedEventData, tzOrDefault]
  · intro l hl
    rcases hone with ⟨h1, h2, h3, h4, h5⟩ | ⟨h1, h2, h3, h4, h5⟩ |
      ⟨h1, h2, h3, h4, h5⟩ | ⟨h1, h2, h3, h4, h5⟩ | ⟨h1, h2, h3, h4, h5⟩ <;>
      simp_all [mkUpdatedEventData, tzOrDefault]
  · intro dt hdt
    rcases hone with ⟨h1, h2, h3, h4, h5⟩ | ⟨h1, h2, h3, h4, h5⟩ |
      ⟨h1, h2, h3, h4, h5⟩ | ⟨h1, h2, h3, h4, h5⟩ | ⟨h1, h2, h3, h4, h5⟩ <;>
      simp_all [mkUpdatedEventData, tzOrDefault]
  · intro hn hdt hd hl
    simp [mkUpdatedEventData, hn, hdt, hd, hl]

/-- Witness for C1: a description-only payload yields a payload equal to
the snapshot with only `description` overwritten. -/
theorem update_single_field_frame_witness :
    mkUpdatedEventData wResolve wBase
        { name := none, date := none, description := some "updated",
          timeZone := none, location := none } =
      { wBase with description := some "updated" } :=
  (update_single_field_frame okGw wResolve "cal-1" "ev-1"
      { name := none, date := none, description := some "updated",
        timeZone := none, location := none } wBase
      (Or.inr (Or.inr (Or.inl (by decide))))).2.2.2.1 "updated" rfl

/-- Claim C2: with a provided destination differing from the source and
at least one present field, given the move succeeds, the Gateway calls
are exactly a move followed by an update targeting the destination
calendar — no intervening get; the update payload merges the move
result. -/
theorem update_move_then_update (gw : Gateway) (resolve : Resolver)
    (fromCal evId : String) (data : PartialEventData) (t : String)
    (mv : CalendarEvent) (ht : t ≠ "") (hne : t ≠ fromCal)
    (hf : hasFieldsToUpdate data = true)
    (hmv : gw.moveEvent fromCal evId t = .ok mv) :
    (updateEvent gw resolve fromCal evId data (some t)).1 =
      [.move fromCal evId t, .update t evId (mkUpdatedEventData resolve mv data)] := by
  rw [updateEvent_move_ok gw resolve fromCal evId data t mv ht hne hmv,
    merge_fields_some gw resolve t evId data mv hf]

/-- Witness for C2: a concrete move-and-rename call issues exactly the
move then the update on the destination. -/
theorem update_move_then_update_witness :
    (updateEvent okGw wResolve "cal-1" "ev-1"
        { name := some "New", date := none, description := none,
          timeZone := none, location := none } (some "cal-2")).1 =
      [.move "cal-1" "ev-1" "cal-2",
       .update "cal-2" "ev-1" (mkUpdatedEventData wResolve wBase
         { name := some "New", date := none, description := none,
           timeZone := none, location := none })] :=
  update_move_then_update okGw wResolve "cal-1" "ev-1"
    { name := some "New", date := none, description := none,
      timeZone := none, location := none } "cal-2" wBase
    (by decide) (by decide) rfl rfl

/-- Claim C3: with no present field and no move requested, `updateEvent`
issues exactly one Gateway get and no mutation, and returns the fetched
snapshot rendered through the formatter. -/
theorem update_no_fields_fetch_only (gw : Gateway) (resolve : Resolver)
    (fromCal evId : String) (data : PartialEventData) (toCal : Option String)
    (hnof : hasFieldsToUpdate data = false)
    (hto : toCal = none ∨ toCal = some fromCal) :
    updateEvent gw resolve fromCal evId data toCal =
      ([.get fromCal evId],
       (gw.getEvent fromCal evId).map fun ev => buildTanaPaste ev fromCal) := by
  have hgoal : updateEvent gw resolve fromCal evId data none =
      ([.get fromCal evId],
       (gw.getEvent fromCal evId).map fun ev => buildTanaPaste ev fromCal) := by
    rw [updateEvent_none_eq_merge, merge_nofields_none gw resolve fromCal evId data hnof]
  rcases hto with rfl | rfl
  · exact hgoal
  · rw [updateEvent_some_self_eq_none]
    exact hgoal

/-- Witness for C3: an empty payload with no destination performs only
the fetch. -/
theorem update_no_fields_fetch_only_witness :
    updateEvent okGw wResolve "cal-1" "ev-1"
        { name := none, date := none, description := none,
          timeZone := none, location := none } none =
      ([.get "cal-1" "ev-1"],
       (okGw.getEvent "cal-1" "ev-1").map fun ev => buildTanaPaste ev "cal-1") :=
  update_no_fields_fetch_only okGw wResolve "cal-1" "ev-1"
    { name := none, date := none, description := none,
      timeZone := none, location := none } none rfl (Or.inl rfl)

/-- Claim C4: any successful `updateEvent` output renders the calendar
the event currently resides in: the destination when a move occurred,
the source calendar otherwise. -/
theorem update_output_current_calendar (gw : Gateway) (resolve : Resolver)
    (fromCal evId : String) (data : PartialEventData) (toCal : Option String)
    (s : String)
    (h : (updateEvent gw resolve fromCal evId data toCal).2 = .ok s) :
    ∃ ev, s = buildTanaPaste ev (currentCalendarAfter fromCal toCal) := by
  rcases toCal with _ | t
  · exact merge_ok_shape gw resolve fromCal evId data none s h
  · by_cases hc : t ≠ "" ∧ t ≠ fromCal
    · simp only [currentCalendarAfter]
      rw [if_pos hc]
      cases hmv : gw.moveEvent fromCal evId t with
      | error e =>
        rw [updateEvent_move_err gw resolve fromCal evId data t e hc.1 hc.2 hmv] at h
        simp at h
      | ok mv =>
        rw [updateEvent_move_ok gw resolve fromCal evId data t mv hc.1 hc.2 hmv] at h
        exact merge_ok_shape gw resolve t evId data (some mv) s h
    · simp only [currentCalendarAfter]
      rw [if_neg hc]
      simp only [updateEvent] at h
      rw [if_neg hc] at h
      exact merge_ok_shape gw resolve fromCal evId data none s h

/-- Witness for C4: after a successful move-only call the rendered
calendar is the destination. -/
theorem update_output_current_calendar_witness :
    ∃ ev, buildTanaPaste wBase "cal-2" =
      buildTanaPaste ev (currentCalendarAfter "cal-1" (some "cal-2")) :=
  update_output_current_calendar okGw wResolve "cal-1" "ev-1"
    { name := none, date := none, description := none,
      timeZone := none, location := none } (some "cal-2")
    (buildTanaPaste wBase "cal-2") rfl

/-- Claim C5 (code behavior at the failing input): the engine's
`deleteEvent` maps the raw provider delete outcome through an
unconditional `true`: one delete call, `true` on success, and on a
provider failure the error propagates — the function never produces
`false`.  On the concrete failing gateway the result is the error, not
`false`. -/
theorem delete_failure_propagates :
    (∀ gw cal evId, deleteEvent gw cal evId =
      ([.delete cal evId], (gw.deleteEvent cal evId).map fun _ => true)) ∧
    (deleteEvent failDeleteGw "cal-1" "ev-1").2 =
      .error { msg := "delete failed" } := by
  constructor
  · intro gw cal evId
    unfold deleteEvent gcDeleteEvent
    cases h : gw.deleteEvent cal evId <;> simp [h, Except.map]
  · rfl

/-- Claim C6: with `date` present and `timeZone` absent, the resolver is
invoked with the provider default timezone `Etc/UTC` (the statement
holds for every resolver), and the update payload's start and end are
both replaced together by the resolver's pair. -/
theorem update_date_default_timezone (gw : Gateway) (resolve : Resolver)
    (fromCal evId : String) (data : PartialEventData) (dt : TanaDateInfo)
    (base : CalendarEvent) (hd : data.date = some dt)
    (htz : data.timeZone = none)
    (hget : gw.getEvent fromCal evId = .ok base) :
    (updateEvent gw resolve fromCal evId data none).1 =
      [.get fromCal evId, .update fromCal evId (mkUpdatedEventData resolve base data)] ∧
    (mkUpdatedEventData resolve base data).start = some (resolve dt "Etc/UTC").1 ∧
    (mkUpdatedEventData resolve base data).«end» = some (resolve dt "Etc/UTC").2 := by
  have hf : hasFieldsToUpdate data = true := by simp [hasFieldsToUpdate, hd]
  refine ⟨?_, ?_, ?_⟩
  · rw [updateEvent_none_eq_merge,
      merge_fields_none gw resolve fromCal evId data base hf hget]
  all_goals {
    unfold mkUpdatedEventData
    rw [hd, htz]
    cases data.name <;> cases data.description <;> cases data.location <;>
      simp [tzOrDefault]
  }

/-- Witness for C6: a date-only payload produces a payload whose start
comes from the resolver called with `Etc/UTC`. -/
theorem update_date_default_timezone_witness :
    (mkUpdatedEventData wResolve wBase
        { name := none, date := some { raw := "2025-02-03" },
          description := none, timeZone := none, location := none }).start =
      some (wResolve { raw := "2025-02-03" } "Etc/UTC").1 :=
  (update_date_default_timezone okGw wResolve "cal-1" "ev-1"
      { name := none, date := some { raw := "2025-02-03" },
        description := none, timeZone := none, location := none }
      { raw := "2025-02-03" } wBase rfl rfl rfl).2.1

/-- Claim C7: a destination equal to the source issues no move call and
produces exactly the same Gateway call sequence and result as an absent
destination. -/
theorem update_same_calendar_eq_absent (gw : Gateway) (resolve : Resolver)
    (fromCal evId : String) (data : PartialEventData) :
    updateEvent gw resolve fromCal evId data (some fromCal) =
      updateEvent gw resolve fromCal evId data none ∧
    ((updateEvent gw resolve fromCal evId data (some fromCal)).1.all
      fun c => !c.isMove) = true := by
  refine ⟨updateEvent_some_self_eq_none gw resolve fromCal evId data, ?_⟩
  rw [updateEvent_some_self_eq_none, updateEvent_none_eq_merge]
  exact merge_no_move gw resolve fromCal evId data none

/-- Claim C8: `createEvent` issues exactly one insert whose payload
carries `summary = name`, `description`, `location` and the resolved
start/end pair with no attendee (or any other) field, and returns the
three-line paste text `Event URL::…`, `Event ID::…`,
`Synced Calendar ID::…`. -/
theorem create_one_insert_three_lines (gw : Gateway) (resolve : Resolver)
    (cal : String) (data : EventData) (ev : CalendarEvent)
    (hins : gw.insertEvent cal (createEventBody resolve data) = .ok ev) :
    createEvent gw resolve cal data =
      ([.insert cal (createEventBody resolve data)],
       .ok ("Event URL::" ++ optStr ev.htmlLink ++ "\n" ++
            "Event ID::" ++ optStr ev.id ++ "\n" ++
            "Synced Calendar ID::" ++ cal)) ∧
    (createEventBody resolve data).summary = some data.name ∧
    (createEventBody resolve data).description = some data.description ∧
    (createEventBody resolve data).location = some data.location ∧
    (createEventBody resolve data).start = some (resolve data.date data.timeZone).1 ∧
    (createEventBody resolve data).«end» = some (resolve data.date data.timeZone).2 ∧
    (createEventBody resolve data).attendees = none ∧
    (createEventBody resolve data).id = none ∧
    (createEventBody resolve data).htmlLink = none ∧
    (createEventBody resolve data).status = none ∧
    (createEventBody resolve data).etag = none := by
  refine ⟨?_, rfl, rfl, rfl, rfl, rfl, rfl, rfl, rfl, rfl, rfl⟩
  simp only [createEvent, hins]
  rfl

/-- Fixture create payload for the C8 witness. -/
def wEventData : EventData :=
  { name := "Standup", date := { raw := "2025-01-01" },
    description := "", timeZone := "Etc/UTC", location := "" }

/-- The event `okGw` returns for the C8 witness insert. -/
def wInserted : CalendarEvent :=
  { createEventBody wResolve wEventData with
    id := some "new-ev", htmlLink := some "https://cal.example/new-ev" }

/-- Witness for C8: the concrete create call issues one insert and
returns the three-line paste text. -/
theorem create_one_insert_three_lines_witness :
    createEvent okGw wResolve "cal-1" wEventData =
      ([.insert "cal-1" (createEventBody wResolve wEventData)],
       .ok ("Event URL::" ++ optStr wInserted.htmlLink ++ "\n" ++
            "Event ID::" ++ optStr wInserted.id ++ "\n" ++
            "Synced Calendar ID::" ++ "cal-1")) :=
  (create_one_insert_three_lines okGw wResolve "cal-1" wEventData wInserted rfl).1

/-- Claim C9: every Gateway failure inside `updateEvent` propagates with
no further Gateway call and no compensating action, at each of the five
reachable failure points: a failing move is the only call; after a
successful move a failing update leaves the trace at exactly
move-then-update (no rollback move); on the no-move path a failing
fetch is the only call; on the no-move fetch-then-update path a failing
update leaves the trace at exactly get-then-update; and a failing
fallback fetch on the no-fields path is the only call. -/
theorem update_failure_propagation (gw : Gateway) (resolve : Resolver)
    (fromCal evId : String) (data : PartialEventData) (t : String)
    (ht : t ≠ "") (hne : t ≠ fromCal) :
    (∀ e, gw.moveEvent fromCal evId t = .error e →
      updateEvent gw resolve fromCal evId data (some t) =
        ([.move fromCal evId t], .error e)) ∧
    (∀ mv e, gw.moveEvent fromCal evId t = .ok mv →
      hasFieldsToUpdate data = true →
      gw.updateEvent t evId (mkUpdatedEventData resolve mv data) = .error e →
      updateEvent gw resolve fromCal evId data (some t) =
        ([.move fromCal evId t, .update t evId (mkUpdatedEventData resolve mv data)],
         .error e)) ∧
    (∀ e, hasFieldsToUpdate data = true → gw.getEvent fromCal evId = .error e →
      updateEvent gw resolve fromCal evId data none =
        ([.get fromCal evId], .error e)) ∧
    (∀ base e, hasFieldsToUpdate data = true →
      gw.getEvent fromCal evId = .ok base →
      gw.updateEvent fromCal evId (mkUpdatedEventData resolve base data) = .error e →
      updateEvent gw resolve fromCal evId data none =
        ([.get fromCal evId, .update fromCal evId (mkUpdatedEventData resolve base data)],
         .error e)) ∧
    (∀ e, hasFieldsToUpdate data = false → gw.getEvent fromCal evId = .error e →
      updateEvent gw resolve fromCal evId data none =
        ([.get fromCal evId], .error e)) := by
  refine ⟨?_, ?_, ?_, ?_, ?_⟩
  · intro e hmv
    exact updateEvent_move_err gw resolve fromCal evId data t e ht hne hmv
  · intro mv e hmv hf hu
    rw [updateEvent_move_ok gw resolve fromCal evId data t mv ht hne hmv,
      merge_fields_some gw resolve t evId data mv hf, hu]
    rfl
  · intro e hf hget
    rw [updateEvent_none_eq_merge]
    exact merge_fields_none_get_err gw resolve fromCal evId data e hf hget
  · intro base e hf hget hu
    rw [updateEvent_none_eq_merge,
      merge_fields_none gw resolve fromCal evId data base hf hget, hu]
    rfl
  · intro e hnof hget
    rw [updateEvent_none_eq_merge,
      merge_nofields_none gw resolve fromCal evId data hnof, hget]
    rfl

/-- Witness for C9: a successful move followed by a failing update ends
with exactly the move and the update in the trace and the error as
result. -/
theorem update_failure_propagation_witness :
    updateEvent failUpdateGw wResolve "cal-1" "ev-1"
        { name := some "New", date := none, description := none,
          timeZone := none, location := none } (some "cal-2") =
      ([.move "cal-1" "ev-1" "cal-2",
        .update "cal-2" "ev-1" (mkUpdatedEventData wResolve wBase
          { name := some "New", date := none, description := none,
            timeZone := none, location := none })],
       .error { msg := "update failed" }) :=
  (update_failure_propagation failUpdateGw wResolve "cal-1" "ev-1"
      { name := some "New", date := none, description := none,
        timeZone := none, location := none } "cal-2"
      (by decide) (by decide)).2.1 wBase { msg := "update failed" } rfl rfl rfl

/-- Claim C10: a payload containing only `timeZone` still counts as a
field to update: `updateEvent` issues a get followed by a full-resource
update whose payload is identical to the fetched snapshot. -/
theorem update_timezone_only_identical_payload (gw : Gateway)
    (resolve : Resolver) (fromCal evId tz : String) (base : CalendarEvent)
    (hget : gw.getEvent fromCal evId = .ok base) :
    updateEvent gw resolve fromCal evId
        { name := none, date := none, description := none,
          timeZone := some tz, location := none } none =
      ([.get fromCal evId, .update fromCal evId base],
       (gw.updateEvent fromCal evId base).map fun ev => buildTanaPaste ev fromCal) := by
  rw [updateEvent_none_eq_merge,
    merge_fields_none gw resolve fromCal evId
      { name := none, date := none, description := none,
        timeZone := some tz, location := none } base rfl hget]
  rfl

/-- Witness for C10: a concrete timezone-only request issues the get and
a full update carrying the snapshot unchanged. -/
theorem update_timezone_only_identical_payload_witness :
    updateEvent okGw wResolve "cal-1" "ev-1"
        { name := none, date := none, description := none,
          timeZone := some "Asia/Seoul", location := none } none =
      ([.get "cal-1" "ev-1", .update "cal-1" "ev-1" wBase],
       (okGw.updateEvent "cal-1" "ev-1" wBase).map fun ev => buildTanaPaste ev "cal-1") :=
  update_timezone_only_identical_payload okGw wResolve "cal-1" "ev-1"
    "Asia/Seoul" wBase rfl

end TanaGcal
